import Mathlib

/-
Verification development for the TH-Dashboard sensor node.

The repository ships a single source artifact, the credential template
src/arduino/sensor_node/secrets.example.h, which defines four string
constants behind a SECRETS_H include guard.  The surrounding
connectivity-bootstrap subsystem (CredentialStore, LinkManager, ApiClient,
Supervisor) is described by the design document but is not present in the
repository; those components are modelled here from the design document's
words, and each such definition is marked "Modelled from the spec".
-/

/-- WiFi SSID placeholder string from secrets.example.h, line 8. -/
def WIFI_SSID : String := "your-wifi-ssid"

/-- WiFi password placeholder string from secrets.example.h, line 9. -/
def WIFI_PASSWORD : String := "your-wifi-password"

/-- Backend base-URL placeholder string from secrets.example.h, line 13. -/
def SUPABASE_URL : String := "https://your-project-id.supabase.co"

/-- Backend API-key placeholder string from secrets.example.h, line 14. -/
def SUPABASE_ANON_KEY : String := "your-anon-key-here"

/-- One preprocessor define: a name together with an optional replacement
body.  The include guard SECRETS_H has no body; the four credential
constants have string-literal bodies. -/
structure PPDef where
  name : String
  body : Option String
  deriving DecidableEq, Repr

/-- The four string-constant defines of secrets.example.h, in file order. -/
def stringConstantDefs : List PPDef :=
  [⟨"WIFI_SSID", some WIFI_SSID⟩,
   ⟨"WIFI_PASSWORD", some WIFI_PASSWORD⟩,
   ⟨"SUPABASE_URL", some SUPABASE_URL⟩,
   ⟨"SUPABASE_ANON_KEY", some SUPABASE_ANON_KEY⟩]

/-- Everything one expansion of secrets.example.h contributes to the
translation unit when SECRETS_H is not yet defined: the guard itself
(line 5) followed by the four string constants (lines 8-14). -/
def secretsHeaderDefs : List PPDef := ⟨"SECRETS_H", none⟩ :: stringConstantDefs

/-- One textual inclusion of secrets.example.h into a translation unit whose
current define environment is env: the ifndef SECRETS_H guard (lines 4-5,
16) makes the inclusion contribute nothing when SECRETS_H is already
defined, and contribute secretsHeaderDefs otherwise. -/
def includeSecretsHeader (env : List PPDef) : List PPDef :=
  if "SECRETS_H" ∈ env.map PPDef.name then env
  else env ++ secretsHeaderDefs

/-- Modelled from the spec: the Credentials record of the data model,
four string fields (ssid, passphrase, apiBaseUrl, apiKey).  The consuming
code is absent from the repository. -/
structure Credentials where
  ssid : String
  passphrase : String
  apiBaseUrl : String
  apiKey : String
  deriving DecidableEq, Repr

/-- Modelled from the spec: ConfigError taxonomy (PlaceholderDetected,
MissingField). -/
inductive ConfigError
  | PlaceholderDetected
  | MissingField
  deriving DecidableEq, Repr

/-- Modelled from the spec: result of CredentialStore.load, either the
validated Credentials or a ConfigError. -/
inductive LoadResult
  | ok (c : Credentials)
  | error (e : ConfigError)
  deriving DecidableEq, Repr

/-- The Credentials record holding exactly the documented template values
of secrets.example.h. -/
def templateCreds : Credentials :=
  ⟨WIFI_SSID, WIFI_PASSWORD, SUPABASE_URL, SUPABASE_ANON_KEY⟩

/-- Modelled from the spec: CredentialStore.load.  The CredentialStore
component is absent from the repository.  Following the order of the two
failure clauses in the design document, the placeholder check (any field
exactly matching the documented template value) precedes the
missing-field check (any field empty). -/
def CredentialStore.load (c : Credentials) : LoadResult :=
  if c.ssid = WIFI_SSID ∨ c.passphrase = WIFI_PASSWORD ∨
     c.apiBaseUrl = SUPABASE_URL ∨ c.apiKey = SUPABASE_ANON_KEY then
    .error .PlaceholderDetected
  else if c.ssid = "" ∨ c.passphrase = "" ∨ c.apiBaseUrl = "" ∨ c.apiKey = "" then
    .error .MissingField
  else
    .ok c

/-- Modelled from the spec: the reasons a join attempt may fail
(AuthRejected, NotFound, Timeout, RadioError), also the LinkError
taxonomy. -/
inductive LinkReason
  | AuthRejected
  | NotFound
  | Timeout
  | RadioError
  deriving DecidableEq, Repr

/-- Modelled from the spec: LinkManager's link state.  The design document
lists Disconnected, Connecting, Connected and Failed(reason); FatalReport
is the operator-visible fatal report state entered when AuthRejected
exhausts its bounded retry budget. -/
inductive LinkState
  | Disconnected
  | Connecting
  | Connected
  | Failed (reason : LinkReason)
  | FatalReport
  deriving DecidableEq, Repr

/-- Modelled from the spec: LinkManager's full internal state, the link
state plus the count of consecutive AuthRejected join failures. -/
structure LMState where
  link : LinkState
  consecAuthRej : Nat
  deriving DecidableEq, Repr

/-- Modelled from the spec: the events driving LinkManager.  connectCmd
and retryCmd come from the Supervisor; joinSuccess, joinFail and linkLoss
are radio events. -/
inductive LMEvent
  | connectCmd
  | joinSuccess
  | joinFail (r : LinkReason)
  | linkLoss
  | retryCmd
  deriving DecidableEq, Repr

/-- Modelled from the spec: LinkManager's initial state, Disconnected with
no AuthRejected failures recorded. -/
def lmInit : LMState := ⟨.Disconnected, 0⟩

/-- Modelled from the spec: one transition of the LinkManager state
machine.  The Bool records whether the transition issued a join request to
the radio subsystem (true exactly for connect and retry).  nmax is the
bounded AuthRejected attempt budget: the nmax-th consecutive AuthRejected
escalates to the fatal report state, which is absorbing.  A join success
or a failure for any other reason resets the consecutive count. -/
def lmStep (nmax : Nat) (s : LMState) (e : LMEvent) : LMState × Bool :=
  match s.link, e with
  | .FatalReport, _ => (s, false)
  | .Disconnected, .connectCmd => (⟨.Connecting, s.consecAuthRej⟩, true)
  | .Connecting, .joinSuccess => (⟨.Connected, 0⟩, false)
  | .Connecting, .joinFail .AuthRejected =>
    if nmax ≤ s.consecAuthRej + 1 then (⟨.FatalReport, s.consecAuthRej + 1⟩, false)
    else (⟨.Failed .AuthRejected, s.consecAuthRej + 1⟩, false)
  | .Connecting, .joinFail r => (⟨.Failed r, 0⟩, false)
  | .Connected, .linkLoss => (⟨.Disconnected, s.consecAuthRej⟩, false)
  | .Failed _, .retryCmd => (⟨.Connecting, s.consecAuthRej⟩, true)
  | _, _ => (s, false)

/-- Modelled from the spec: running the LinkManager over a list of events,
returning the final state together with the number of join requests
issued to the radio along the way. -/
def lmRunCount (nmax : Nat) : LMState → List LMEvent → LMState × Nat
  | s, [] => (s, 0)
  | s, e :: es =>
    let r := lmStep nmax s e
    let rest := lmRunCount nmax r.1 es
    (rest.1, (if r.2 then 1 else 0) + rest.2)

/-- Modelled from the spec: the LinkManager state reached from s after a
list of events. -/
def lmRunFrom (nmax : Nat) : LMState → List LMEvent → LMState
  | s, [] => s
  | s, e :: es => lmRunFrom nmax (lmStep nmax s e).1 es

/-- Modelled from the spec: an execution fragment in which AuthRejected
occurs k consecutive times, each failed join followed by the Supervisor's
retry call. -/
def arTrace : Nat → List LMEvent
  | 0 => []
  | k + 1 => .joinFail .AuthRejected :: .retryCmd :: arTrace k

/-- Modelled from the spec: a telemetry request, path plus payload bytes
plus timestamp, created by the external sensor-reading collaborator. -/
structure TelemetryRequest where
  path : String
  payload : List Nat
  timestamp : Nat
  deriving DecidableEq, Repr

/-- Modelled from the spec: what the network exchange for one request
would yield, a connection-level failure or an HTTP response. -/
inductive NetOutcome
  | transportFail
  | response (status : Nat) (body : String)
  deriving DecidableEq, Repr

/-- Modelled from the spec: ApiClient.send outcomes, Success(status, body)
or the ApiError taxonomy (NotConnected, Rejected, ServerUnavailable,
Transport). -/
inductive ApiResult
  | success (status : Nat) (body : String)
  | notConnected
  | rejected (status : Nat)
  | serverUnavailable (status : Nat)
  | transport
  deriving DecidableEq, Repr

/-- Modelled from the spec: ApiClient.send.  The ApiClient component is
absent from the repository.  If the link is not Connected it fails fast
with NotConnected and performs no network exchange (the Bool records
whether network I/O was attempted).  Otherwise the outcome of the
exchange is classified by response class: 2xx Success, 4xx Rejected,
5xx ServerUnavailable, connection-level failure Transport; statuses the
design document does not cover are treated as transport-level. -/
def ApiClient.send (link : LinkState) (req : TelemetryRequest) (c : Credentials)
    (net : NetOutcome) : ApiResult × Bool :=
  if link = .Connected then
    match net with
    | .transportFail => (.transport, true)
    | .response s body =>
      if 200 ≤ s ∧ s < 300 then (.success s body, true)
      else if 400 ≤ s ∧ s < 500 then (.rejected s, true)
      else if 500 ≤ s ∧ s < 600 then (.serverUnavailable s, true)
      else (.transport, true)
  else (.notConnected, false)

/-- Modelled from the spec: the Supervisor's RetryPolicy state, attempt
count, next backoff interval and the configured cap. -/
structure RetryPolicy where
  attempts : Nat
  backoff : Nat
  cap : Nat
  deriving DecidableEq, Repr

/-- Modelled from the spec: the RetryPolicy's initial values, zero
attempts and the base backoff interval. -/
def initialPolicy (base cap : Nat) : RetryPolicy := ⟨0, base, cap⟩

/-- Modelled from the spec: one retryable failure doubles the next backoff
interval, capped at the configured cap (exponential backoff with a cap). -/
def RetryPolicy.onFailure (p : RetryPolicy) : RetryPolicy :=
  ⟨p.attempts + 1, min (p.backoff * 2) p.cap, p.cap⟩

/-- Modelled from the spec: the Supervisor observations that drive the
RetryPolicy: a retryable failure of the request, the link transitioning
to Connected, or the request succeeding. -/
inductive SupObs
  | retryableFailure
  | linkConnected
  | requestSuccess
  deriving DecidableEq, Repr

/-- Modelled from the spec: the Supervisor's update of its RetryPolicy
state: advance the backoff on a retryable failure, and reset to the
initial values whenever the link transitions to Connected or a request
succeeds. -/
def RetryPolicy.update (p init : RetryPolicy) : SupObs → RetryPolicy
  | .retryableFailure => p.onFailure
  | .linkConnected => init
  | .requestSuccess => init

/-- Modelled from the spec: process startup.  The Supervisor loads the
credentials first; a ConfigError is fatal at startup and halts before any
network attempt, so the LinkManager never runs and zero join requests are
issued.  On success the LinkManager is driven from its initial state over
the given events, and the number of join requests issued is reported. -/
def Supervisor.startup (nmax : Nat) (c : Credentials) (es : List LMEvent) :
    Option ConfigError × Nat :=
  match CredentialStore.load c with
  | .error e => (some e, 0)
  | .ok _ => (none, (lmRunCount nmax lmInit es).2)

/-- Modelled from the spec: the error class produced by loading the given
credentials, if any. -/
def loadError (c : Credentials) : Option ConfigError :=
  match CredentialStore.load c with
  | .error e => some e
  | .ok _ => none

/-- Modelled from the spec: the report text for a ConfigError.  Error
messages reference field and category names only, never credential
values; the credentials are in scope, as they would be in the consuming
code, but are not consulted. -/
def renderConfigError (c : Credentials) : ConfigError → String
  | .PlaceholderDetected => "ConfigError: placeholder value left in a credential field"
  | .MissingField => "ConfigError: a required credential field is empty"

/-- Modelled from the spec: the report text for a LinkError; category
names only, never credential values. -/
def renderLinkError (c : Credentials) : LinkReason → String
  | .AuthRejected => "LinkError: authentication rejected by the network"
  | .NotFound => "LinkError: configured network not found"
  | .Timeout => "LinkError: join attempt timed out"
  | .RadioError => "LinkError: radio subsystem error"

/-- Modelled from the spec: the report text for an ApiClient outcome;
category names and status codes only, never credential values. -/
def renderApiResult (c : Credentials) : ApiResult → String
  | .success s _ => "Api: success, status " ++ toString s
  | .notConnected => "ApiError: not connected"
  | .rejected s => "ApiError: rejected, status " ++ toString s
  | .serverUnavailable s => "ApiError: server unavailable, status " ++ toString s
  | .transport => "ApiError: transport failure"

/-- Modelled from the spec: the startup report of a process run with the
given credentials: the rendered ConfigError when loading fails, nothing
when it succeeds. -/
def startupReport (c : Credentials) : Option String :=
  (loadError c).map (renderConfigError c)

/-- A credential set with one placeholder field and one empty field:
ssid still carries the template value while the passphrase is empty. -/
def mixedCreds : Credentials := ⟨WIFI_SSID, "", "https://a.example.org", "k1"⟩

/-- The concrete credential set of the design document's end-to-end
scenario. -/
def scenarioCreds : Credentials := ⟨"home", "pw123", "https://proj.example.co", "k1"⟩

/-- A credential set that, like templateCreds, trips the placeholder
check (its ssid is the template value) but differs in every other
secret. -/
def placeholderVariant : Credentials := ⟨WIFI_SSID, "pw", "https://a.b", "k"⟩

/-- C1: the credential template file defines exactly four named string
constants (WiFi SSID, WiFi password, API base URL, API key), each a
non-empty string literal, and the base-URL placeholder has the form
https:// followed by a project id, a dot and a provider domain. -/
theorem secrets_template_shape :
    stringConstantDefs.length = 4 ∧
    stringConstantDefs.map PPDef.name =
      ["WIFI_SSID", "WIFI_PASSWORD", "SUPABASE_URL", "SUPABASE_ANON_KEY"] ∧
    stringConstantDefs.map PPDef.body =
      [some WIFI_SSID, some WIFI_PASSWORD, some SUPABASE_URL, some SUPABASE_ANON_KEY] ∧
    WIFI_SSID.isEmpty = false ∧
    WIFI_PASSWORD.isEmpty = false ∧
    SUPABASE_URL.isEmpty = false ∧
    SUPABASE_ANON_KEY.isEmpty = false ∧
    SUPABASE_URL = "https://" ++ "your-project-id" ++ "." ++ "supabase.co" ∧
    "your-project-id".isEmpty = false ∧
    "supabase.co".isEmpty = false := by
  refine ⟨rfl, rfl, rfl, rfl, rfl, rfl, rfl, ?_, rfl, rfl⟩
  decide

/-- After any inclusion of secrets.example.h, the guard SECRETS_H is
among the defined names. -/
theorem guard_defined_after_include (env : List PPDef) :
    "SECRETS_H" ∈ (includeSecretsHeader env).map PPDef.name := by
  unfold includeSecretsHeader
  split
  · assumption
  · simp [secretsHeaderDefs]

/-- Including secrets.example.h twice yields the same define environment
as including it once. -/
theorem includeSecretsHeader_idem (env : List PPDef) :
    includeSecretsHeader (includeSecretsHeader env) = includeSecretsHeader env := by
  have h := guard_defined_after_include env
  rw [includeSecretsHeader, if_pos h]

/-- C10: the SECRETS_H include guard makes repeated inclusion of
secrets.example.h idempotent: for every n at least 1, including the
header n times into any define environment yields exactly the defines of
including it once. -/
theorem secrets_include_idempotent (env : List PPDef) (n : Nat) (hn : 1 ≤ n) :
    includeSecretsHeader^[n] env = includeSecretsHeader env := by
  induction n with
  | zero => omega
  | succ k ih =>
    rcases Nat.eq_zero_or_pos k with h0 | hk
    · subst h0
      simp
    · rw [Function.iterate_succ_apply', ih hk, includeSecretsHeader_idem]

/-- Witness for C10 at n = 3 and the empty environment. -/
theorem secrets_include_idempotent_witness :
    includeSecretsHeader^[3] ([] : List PPDef) = includeSecretsHeader [] :=
  secrets_include_idempotent [] 3 (by decide)

/-- C2: whenever any of the four credential fields exactly equals its
documented template value, CredentialStore.load returns
PlaceholderDetected, and the process startup halts with that error having
issued zero join requests to the radio. -/
theorem placeholder_detected_blocks_join (nmax : Nat) (c : Credentials) (es : List LMEvent)
    (h : c.ssid = WIFI_SSID ∨ c.passphrase = WIFI_PASSWORD ∨
         c.apiBaseUrl = SUPABASE_URL ∨ c.apiKey = SUPABASE_ANON_KEY) :
    CredentialStore.load c = .error .PlaceholderDetected ∧
    Supervisor.startup nmax c es = (some .PlaceholderDetected, 0) := by
  have hl : CredentialStore.load c = .error .PlaceholderDetected := by
    unfold CredentialStore.load
    rw [if_pos h]
  refine ⟨hl, ?_⟩
  unfold Supervisor.startup
  rw [hl]

/-- Witness for C2 at the full template credential set. -/
theorem placeholder_detected_blocks_join_witness :
    CredentialStore.load templateCreds = .error .PlaceholderDetected ∧
    Supervisor.startup 3 templateCreds [.connectCmd, .joinSuccess] =
      (some .PlaceholderDetected, 0) :=
  placeholder_detected_blocks_join 3 templateCreds [.connectCmd, .joinSuccess] (Or.inl rfl)

/-- Counterexample to C3 as stated: mixedCreds has an empty passphrase,
yet load returns PlaceholderDetected (its ssid is still the template
value), not MissingField, because the placeholder check precedes the
missing-field check. -/
theorem empty_field_claim_counterexample :
    mixedCreds.passphrase = "" ∧
    CredentialStore.load mixedCreds = .error .PlaceholderDetected ∧
    CredentialStore.load mixedCreds ≠ .error .MissingField := by
  refine ⟨rfl, ?_, ?_⟩ <;> decide

/-- C3 (amended): whenever at least one credential field is empty and no
field equals its documented template value, CredentialStore.load returns
MissingField. -/
theorem missing_field_detected (c : Credentials)
    (he : c.ssid = "" ∨ c.passphrase = "" ∨ c.apiBaseUrl = "" ∨ c.apiKey = "")
    (hp : ¬(c.ssid = WIFI_SSID ∨ c.passphrase = WIFI_PASSWORD ∨
            c.apiBaseUrl = SUPABASE_URL ∨ c.apiKey = SUPABASE_ANON_KEY)) :
    CredentialStore.load c = .error .MissingField := by
  unfold CredentialStore.load
  rw [if_neg hp, if_pos he]

/-- Witness for amended C3 at a credential set with an empty ssid. -/
theorem missing_field_detected_witness :
    CredentialStore.load ⟨"", "pw123", "https://proj.example.co", "k1"⟩ =
      .error .MissingField :=
  missing_field_detected ⟨"", "pw123", "https://proj.example.co", "k1"⟩
    (by decide) (by decide)

/-- C4: ApiClient.send called while the link state is not Connected
returns NotConnected and attempts no network I/O. -/
theorem send_fails_fast_when_not_connected (link : LinkState) (req : TelemetryRequest)
    (c : Credentials) (net : NetOutcome) (h : link ≠ .Connected) :
    ApiClient.send link req c net = (.notConnected, false) := by
  unfold ApiClient.send
  rw [if_neg h]

/-- Witness for C4 with a disconnected link and a 200 response on offer. -/
theorem send_fails_fast_when_not_connected_witness :
    ApiClient.send .Disconnected ⟨"/telemetry", [1, 2], 0⟩ scenarioCreds
      (.response 200 "ok") = (.notConnected, false) :=
  send_fails_fast_when_not_connected .Disconnected ⟨"/telemetry", [1, 2], 0⟩
    scenarioCreds (.response 200 "ok") (by decide)

/-- A single LinkManager step can only land in Connected when it started
in Connecting (a genuine join success) or was already in Connected. -/
theorem lmStep_connected_src (nmax : Nat) (s : LMState) (e : LMEvent)
    (h : (lmStep nmax s e).1.link = .Connected) :
    s.link = .Connecting ∨ s.link = .Connected := by
  unfold lmStep at h
  split at h <;> simp_all

/-- Running the LinkManager over an appended event list factors through
the intermediate state. -/
theorem lmRunFrom_append (nmax : Nat) (s : LMState) (l₁ l₂ : List LMEvent) :
    lmRunFrom nmax s (l₁ ++ l₂) = lmRunFrom nmax (lmRunFrom nmax s l₁) l₂ := by
  induction l₁ generalizing s with
  | nil => rfl
  | cons e es ih => simp [lmRunFrom, ih]

/-- C5: in every execution from the initial state Disconnected, every
transition into Connected is immediately preceded by Connecting. -/
theorem connected_only_from_connecting (nmax : Nat) (es : List LMEvent) (e : LMEvent)
    (hc : (lmRunFrom nmax lmInit (es ++ [e])).link = .Connected)
    (hprev : (lmRunFrom nmax lmInit es).link ≠ .Connected) :
    (lmRunFrom nmax lmInit es).link = .Connecting := by
  rw [lmRunFrom_append] at hc
  have h2 : lmRunFrom nmax (lmRunFrom nmax lmInit es) [e] =
      (lmStep nmax (lmRunFrom nmax lmInit es) e).1 := rfl
  rw [h2] at hc
  rcases lmStep_connected_src nmax _ e hc with h | h
  · exact h
  · exact absurd h hprev

/-- Witness for C5 on the trace connect-then-join-success. -/
theorem connected_only_from_connecting_witness :
    (lmRunFrom 3 lmInit [.connectCmd]).link = .Connecting :=
  connected_only_from_connecting 3 [.connectCmd] .joinSuccess (by decide) (by decide)

/-- The AuthRejected retry trace splits a final failure-retry pair off
its end. -/
theorem arTrace_succ_append (k : Nat) : arTrace (k + 1) = arTrace k ++ arTrace 1 := by
  induction k with
  | zero => rfl
  | succ m ih =>
    show LMEvent.joinFail .AuthRejected :: .retryCmd :: arTrace (m + 1) =
      arTrace (m + 1) ++ arTrace 1
    conv_rhs => rw [show arTrace (m + 1) =
      LMEvent.joinFail .AuthRejected :: .retryCmd :: arTrace m from rfl]
    simp [ih]

/-- While the AuthRejected budget is not exhausted, each failure-retry
pair returns the machine to Connecting with the consecutive count up by
one. -/
theorem lmRunFrom_arTrace_stay (nmax : Nat) (k : Nat) :
    ∀ c : Nat, c + k < nmax →
      lmRunFrom nmax ⟨.Connecting, c⟩ (arTrace k) = ⟨.Connecting, c + k⟩ := by
  induction k with
  | zero => intro c _; rfl
  | succ m ih =>
    intro c hc
    have h1 : ¬ nmax ≤ c + 1 := by omega
    have e1 : lmStep nmax ⟨.Connecting, c⟩ (.joinFail .AuthRejected) =
        (⟨.Failed .AuthRejected, c + 1⟩, false) := by
      simp [lmStep, if_neg h1]
    show lmRunFrom nmax ⟨.Connecting, c⟩
        (.joinFail .AuthRejected :: .retryCmd :: arTrace m) = _
    rw [lmRunFrom, e1]
    show lmRunFrom nmax ⟨.Failed .AuthRejected, c + 1⟩ (.retryCmd :: arTrace m) = _
    rw [lmRunFrom]
    show lmRunFrom nmax ⟨.Connecting, c + 1⟩ (arTrace m) = _
    rw [ih (c + 1) (by omega)]
    congr 1
    omega

/-- From the fatal report state, events change nothing and no join
request is ever issued. -/
theorem lmRunCount_fatal (nmax : Nat) (s : LMState) (es : List LMEvent)
    (h : s.link = .FatalReport) : lmRunCount nmax s es = (s, 0) := by
  induction es with
  | nil => rfl
  | cons e es ih =>
    have hstep : lmStep nmax s e = (s, false) := by
      cases e <;> simp [lmStep, h]
    simp [lmRunCount, hstep, ih]

/-- Every non-fatal LinkManager state admits an event that changes the
state: only the fatal report state is terminal. -/
theorem nonfatal_not_terminal (nmax : Nat) (s : LMState) (h : s.link ≠ .FatalReport) :
    ∃ e, (lmStep nmax s e).1 ≠ s := by
  obtain ⟨l, k⟩ := s
  cases l with
  | Disconnected => exact ⟨.connectCmd, by simp [lmStep]⟩
  | Connecting => exact ⟨.joinSuccess, by simp [lmStep]⟩
  | Connected => exact ⟨.linkLoss, by simp [lmStep]⟩
  | Failed r => exact ⟨.retryCmd, by simp [lmStep]⟩
  | FatalReport => exact absurd rfl h

/-- C6: after nmax consecutive AuthRejected join failures the LinkManager
is in the fatal report state; from that state every event leaves the
state unchanged and zero join requests are issued; and the fatal report
state is the only terminal state, every other state having an event that
moves it. -/
theorem authRejected_exhaustion_terminal (nmax : Nat) (hn : 1 ≤ nmax) :
    (lmRunFrom nmax ⟨.Connecting, 0⟩ (arTrace nmax)).link = .FatalReport ∧
    (∀ s es, s.link = .FatalReport → lmRunCount nmax s es = (s, 0)) ∧
    (∀ s : LMState, s.link ≠ .FatalReport → ∃ e, (lmStep nmax s e).1 ≠ s) := by
  refine ⟨?_, fun s es h => lmRunCount_fatal nmax s es h,
          fun s h => nonfatal_not_terminal nmax s h⟩
  obtain ⟨m, rfl⟩ : ∃ m, nmax = m + 1 := ⟨nmax - 1, by omega⟩
  rw [arTrace_succ_append, lmRunFrom_append,
      lmRunFrom_arTrace_stay (m + 1) m 0 (by omega)]
  have e1 : lmStep (m + 1) ⟨.Connecting, 0 + m⟩ (.joinFail .AuthRejected) =
      (⟨.FatalReport, 0 + m + 1⟩, false) := by
    simp [lmStep, if_pos (by omega : m + 1 ≤ 0 + m + 1)]
  show (lmRunFrom (m + 1) ⟨.Connecting, 0 + m⟩
      (.joinFail .AuthRejected :: .retryCmd :: [])).link = .FatalReport
  rw [lmRunFrom, e1]
  rfl

/-- Witness for C6 at nmax = 2: two consecutive AuthRejected failures
land in the fatal report state. -/
theorem authRejected_exhaustion_terminal_witness :
    (lmRunFrom 2 ⟨.Connecting, 0⟩ (arTrace 2)).link = .FatalReport :=
  (authRejected_exhaustion_terminal 2 (by decide)).1

/-- C7: for sends that reach the network (link Connected), the outcome is
determined by the response class: Success for every 2xx, Rejected for
every 4xx, ServerUnavailable for every 5xx, Transport for every
connection-level failure; each with network I/O recorded. -/
theorem send_response_classes (req : TelemetryRequest) (c : Credentials) :
    ApiClient.send .Connected req c .transportFail = (.transport, true) ∧
    (∀ s body, 200 ≤ s → s < 300 →
      ApiClient.send .Connected req c (.response s body) = (.success s body, true)) ∧
    (∀ s body, 400 ≤ s → s < 500 →
      ApiClient.send .Connected req c (.response s body) = (.rejected s, true)) ∧
    (∀ s body, 500 ≤ s → s < 600 →
      ApiClient.send .Connected req c (.response s body) = (.serverUnavailable s, true)) := by
  refine ⟨rfl, fun s body h1 h2 => ?_, fun s body h1 h2 => ?_, fun s body h1 h2 => ?_⟩
  · unfold ApiClient.send
    rw [if_pos rfl]
    show (if 200 ≤ s ∧ s < 300 then _ else _) = _
    rw [if_pos ⟨h1, h2⟩]
  · unfold ApiClient.send
    rw [if_pos rfl]
    show (if 200 ≤ s ∧ s < 300 then _ else _) = _
    rw [if_neg (by omega), if_pos ⟨h1, h2⟩]
  · unfold ApiClient.send
    rw [if_pos rfl]
    show (if 200 ≤ s ∧ s < 300 then _ else _) = _
    rw [if_neg (by omega), if_neg (by omega), if_pos ⟨h1, h2⟩]

/-- Witness for C7 at the design document's scenario: a 200 response
succeeds and a 503 response is ServerUnavailable. -/
theorem send_response_classes_witness :
    ApiClient.send .Connected ⟨"/telemetry", [1], 7⟩ scenarioCreds
      (.response 503 "busy") = (.serverUnavailable 503, true) :=
  (send_response_classes ⟨"/telemetry", [1], 7⟩ scenarioCreds).2.2.2 503 "busy"
    (by decide) (by decide)

/-- One retryable failure keeps the cap unchanged. -/
theorem onFailure_cap (p : RetryPolicy) : p.onFailure.cap = p.cap := rfl

/-- Iterated retryable failures keep the cap unchanged. -/
theorem iterate_onFailure_cap (k : Nat) (p : RetryPolicy) :
    (RetryPolicy.onFailure^[k] p).cap = p.cap := by
  induction k generalizing p with
  | zero => rfl
  | succ m ih => rw [Function.iterate_succ_apply, ih, onFailure_cap]

/-- If the backoff starts at or below the cap, it stays at or below the
cap under any number of retryable failures. -/
theorem iterate_onFailure_le_cap (k : Nat) (p : RetryPolicy) (h : p.backoff ≤ p.cap) :
    (RetryPolicy.onFailure^[k] p).backoff ≤ p.cap := by
  induction k generalizing p with
  | zero => exact h
  | succ m ih =>
    rw [Function.iterate_succ_apply]
    have h1 : p.onFailure.backoff ≤ p.onFailure.cap := min_le_right _ _
    have h2 := ih p.onFailure h1
    rwa [onFailure_cap] at h2

/-- One retryable failure never decreases the backoff while it is at or
below the cap. -/
theorem onFailure_backoff_mono (p : RetryPolicy) (h : p.backoff ≤ p.cap) :
    p.backoff ≤ p.onFailure.backoff :=
  le_min (by omega) h

/-- Across consecutive retryable failures the backoff interval is
monotonically non-decreasing. -/
theorem iterate_onFailure_mono (p : RetryPolicy) (h : p.backoff ≤ p.cap)
    (k j : Nat) (hkj : k ≤ j) :
    (RetryPolicy.onFailure^[k] p).backoff ≤ (RetryPolicy.onFailure^[j] p).backoff := by
  induction j, hkj using Nat.le_induction with
  | base => exact le_refl _
  | succ m hm ih =>
    refine le_trans ih ?_
    rw [Function.iterate_succ_apply']
    refine onFailure_backoff_mono _ ?_
    rw [iterate_onFailure_cap]
    exact iterate_onFailure_le_cap m p h

/-- C8: starting from the initial policy (base backoff at or below the
cap), the backoff after j consecutive retryable failures is at least the
backoff after k of them whenever k is at most j, and never exceeds the
cap; and the Supervisor resets the policy to its initial values whenever
the link transitions to Connected or a request succeeds. -/
theorem backoff_monotone_capped_and_reset (base cap k j : Nat)
    (hbc : base ≤ cap) (hkj : k ≤ j) :
    (RetryPolicy.onFailure^[k] (initialPolicy base cap)).backoff ≤
      (RetryPolicy.onFailure^[j] (initialPolicy base cap)).backoff ∧
    (RetryPolicy.onFailure^[j] (initialPolicy base cap)).backoff ≤ cap ∧
    (∀ p : RetryPolicy,
      p.update (initialPolicy base cap) .linkConnected = initialPolicy base cap ∧
      p.update (initialPolicy base cap) .requestSuccess = initialPolicy base cap) :=
  ⟨iterate_onFailure_mono (initialPolicy base cap) hbc k j hkj,
   iterate_onFailure_le_cap j (initialPolicy base cap) hbc,
   fun _ => ⟨rfl, rfl⟩⟩

/-- Witness for C8 at base 100ms, cap 3000ms, comparing attempts 2 and 5. -/
theorem backoff_monotone_capped_and_reset_witness :
    (RetryPolicy.onFailure^[2] (initialPolicy 100 3000)).backoff ≤
      (RetryPolicy.onFailure^[5] (initialPolicy 100 3000)).backoff :=
  (backoff_monotone_capped_and_reset 100 3000 2 5 (by decide) (by decide)).1

/-- Counterexample to C9 as stated: two runs whose credentials differ
only in their (secret) field values need not produce identical reports,
because the placeholder check reacts to the values themselves: the
template credentials produce a startup report while the scenario
credentials produce none. -/
theorem identical_reports_counterexample :
    templateCreds ≠ scenarioCreds ∧
    startupReport templateCreds ≠ startupReport scenarioCreds := by
  constructor <;> decide

/-- C9 (amended): every error report is rendered from field and category
names only, independently of the credential values (the rendering of
each ConfigError, LinkError and ApiClient outcome is the same under any
two credential sets), so two runs that encounter the same error class
produce identical reports. -/
theorem error_reports_secret_independent :
    (∀ (c₁ c₂ : Credentials) (e : ConfigError),
      renderConfigError c₁ e = renderConfigError c₂ e) ∧
    (∀ (c₁ c₂ : Credentials) (r : LinkReason),
      renderLinkError c₁ r = renderLinkError c₂ r) ∧
    (∀ (c₁ c₂ : Credentials) (a : ApiResult),
      renderApiResult c₁ a = renderApiResult c₂ a) ∧
    (∀ c₁ c₂ : Credentials, loadError c₁ = loadError c₂ →
      startupReport c₁ = startupReport c₂) := by
  refine ⟨fun c₁ c₂ e => by cases e <;> rfl,
          fun c₁ c₂ r => by cases r <;> rfl,
          fun c₁ c₂ a => by cases a <;> rfl,
          fun c₁ c₂ h => ?_⟩
  unfold startupReport
  rw [h]
  cases loadError c₂ with
  | none => rfl
  | some e => cases e <;> rfl

/-- Witness for amended C9: the template credentials and a variant with
every other secret changed trip the same error class and produce the
same report. -/
theorem error_reports_secret_independent_witness :
    startupReport templateCreds = startupReport placeholderVariant :=
  error_reports_secret_independent.2.2.2 templateCreds placeholderVariant (by decide)
